import Mathlib

/-!
# Shallow embedding of the Kill-Llama DRAMSim2 MemoryController

This file embeds the parts of `src/DRAMSim2/MemoryController.cpp` that the
verified properties are about: the per-bank state machine and timing guards,
the command-issue effect of `MemoryController::update()` (the big switch over
the popped bus packet), the write-data FIFO drain, the refresh gate, the
transaction intake (`addTransaction`), the read-return path, the per-rank
energy accounting, and the energy part of `resetStats`.

Machine integers (`unsigned`, `uint64_t`) are modelled as `Nat`; C `unsigned`
subtraction appears only in places where the operands keep it non-negative in
any run (e.g. `tRCD - AL`, countdown decrements of positive counters), so
truncated `Nat` subtraction coincides with the source there.  Fatal
`exit`/`abort` paths are modelled by `Option` results (`none` = simulator
abort).  Callback invocations are modelled by recording the event.
-/

namespace KillLlama

/-- Bus packet kinds, from `BusPacket.h` (used throughout MemoryController.cpp). -/
inductive BusPacketType where
  | READ | READ_P | WRITE | WRITE_P | ACTIVATE | PRECHARGE | REFRESH | DATA
deriving DecidableEq, Repr

/-- Bank FSM states, from `BankState.h`. -/
inductive CurrentBankState where
  | Idle | RowActive | Precharging | Refreshing | PowerDown
deriving DecidableEq, Repr

/-- Transaction kinds, from `Transaction.h`. -/
inductive TransactionType where
  | DATA_READ | DATA_WRITE | RETURN_DATA
deriving DecidableEq, Repr

open BusPacketType CurrentBankState TransactionType

/-- A bus packet (`BusPacket`): command kind, physical address, column, row,
rank, bank and data payload (payload abstracted to a `Nat`). -/
structure BusPacket where
  busPacketType : BusPacketType
  physicalAddress : Nat
  column : Nat
  row : Nat
  rank : Nat
  bank : Nat
  dataVal : Nat
deriving DecidableEq, Repr

/-- A transaction (`Transaction`): kind, address, payload, and the two
timestamps the controller stamps (`timeAdded`, `timeACTIssued`). -/
structure Transaction where
  transactionType : TransactionType
  address : Nat
  dataVal : Nat
  timeAdded : Nat
  timeACTIssued : Nat
deriving DecidableEq, Repr

/-- Per-bank state (`BankState`): FSM state, last command, open row,
implicit-transition countdown and the "not before" timestamps. -/
structure BankState where
  currentBankState : CurrentBankState
  lastCommand : BusPacketType
  openRowAddress : Nat
  stateChangeCountdown : Nat
  nextRead : Nat
  nextWrite : Nat
  nextActivate : Nat
  nextPrecharge : Nat
  nextPowerUp : Nat
deriving DecidableEq, Repr

/-- The configuration constants MemoryController.cpp reads (from
`SystemConfiguration` globals / the ini profiles).  `refreshPeriodCycles`
stands for the derived quantity `REFRESH_PERIOD/tCK` (the only form in which
`REFRESH_PERIOD` and `tCK` occur in the modelled code). -/
structure Cfg where
  NUM_RANKS : Nat
  NUM_BANKS : Nat
  NUM_DEVICES : Nat
  BL : Nat
  WL : Nat
  AL : Nat
  tCCD : Nat
  tRTRS : Nat
  tRP : Nat
  tRC : Nat
  tRAS : Nat
  tRCD : Nat
  tRRD : Nat
  tRFC : Nat
  tXP : Nat
  READ_TO_PRE_DELAY : Nat
  READ_AUTOPRE_DELAY : Nat
  WRITE_TO_PRE_DELAY : Nat
  WRITE_AUTOPRE_DELAY : Nat
  READ_TO_WRITE_DELAY : Nat
  WRITE_TO_READ_DELAY_B : Nat
  WRITE_TO_READ_DELAY_R : Nat
  IDD0 : Nat
  IDD2N : Nat
  IDD2P : Nat
  IDD3N : Nat
  IDD4R : Nat
  IDD4W : Nat
  IDD5 : Nat
  refreshPeriodCycles : Nat
  TRANS_QUEUE_DEPTH : Nat
  HISTOGRAM_BIN_SIZE : Nat
  isSmartMRAM : Bool
deriving DecidableEq, Repr

/-- `SEQUENTIAL(rank,bank)` = `rank*NUM_BANKS + bank` (macro at the top of
MemoryController.cpp). -/
def seqIdx (cfg : Cfg) (rank bank : Nat) : Nat := rank * cfg.NUM_BANKS + bank

/-- The conventional activation/precharge energy expression
`((IDD0 * tRC) - ((IDD3N * tRAS) + (IDD2N * (tRC - tRAS)))) * NUM_DEVICES`
(MemoryController.cpp lines 334 and 467). -/
def actEnergy (cfg : Cfg) : Nat :=
  (cfg.IDD0 * cfg.tRC - (cfg.IDD3N * cfg.tRAS + cfg.IDD2N * (cfg.tRC - cfg.tRAS)))
    * cfg.NUM_DEVICES

/-- The bank-state matrix `bankStates[rank][bank]`, as a total function; the
code only ever touches indices below `NUM_RANKS`/`NUM_BANKS`. -/
abbrev BankMatrix := Nat → Nat → BankState

/-- Point update of one bank of the matrix. -/
def setBank (m : BankMatrix) (r b : Nat) (f : BankState → BankState) : BankMatrix :=
  fun i j => if i = r ∧ j = b then f (m i j) else m i j

/-- Add `amt` to entry `i` of a per-rank (or per-bank-index) accumulator. -/
def bump (v : Nat → Nat) (i amt : Nat) : Nat → Nat :=
  fun k => if k = i then v k + amt else v k

/-!
## Implicit bank-state transitions (update() lines 160-204)

Per bank: if `stateChangeCountdown > 0`, decrement it; on reaching zero apply
the transition dictated by `lastCommand` (READ_P/WRITE_P auto-precharge:
SMART goes directly to `Idle` with countdown 0, conventional enters
`Precharging` with countdown `tRP`; PRECHARGE/REFRESH go to `Idle`).
-/

/-- One bank's countdown step from the top of `MemoryController::update()`. -/
def bankUpdateStateChange (cfg : Cfg) (b : BankState) : BankState :=
  if b.stateChangeCountdown > 0 then
    let b1 : BankState := { b with stateChangeCountdown := b.stateChangeCountdown - 1 }
    if b1.stateChangeCountdown = 0 then
      match b1.lastCommand with
      | WRITE_P | READ_P =>
        if cfg.isSmartMRAM then
          { b1 with currentBankState := Idle, lastCommand := PRECHARGE,
                    stateChangeCountdown := 0 }
        else
          { b1 with currentBankState := Precharging, lastCommand := PRECHARGE,
                    stateChangeCountdown := cfg.tRP }
      | REFRESH | PRECHARGE => { b1 with currentBankState := Idle }
      | _ => b1
    else b1
  else b

/-!
## The command-issue effect (update() lines 297-561)

`issueCommand cfg now p s` models the body of `if (commandQueue.pop(...))`:
the write-data twin push for WRITE/WRITE_P, then the switch on the packet
type updating bank states, timing guards and energies.  The `default:` case
of the switch calls `exit(0)`; it is modelled by `none`.
-/

/-- The controller state touched by the command-issue switch. -/
structure IssueState where
  banks : BankMatrix
  actpreEnergy : Nat → Nat
  burstEnergy : Nat → Nat
  refreshEnergy : Nat → Nat
  writeDataToSend : List BusPacket
  writeDataCountdown : List Nat
  pendingReadTransactions : List Transaction

/-- READ case, lines 316-327: stamp `timeACTIssued = now` into the first
pending read transaction with matching address and `timeACTIssued == 0`
(row-buffer hit where the ACTIVATE was skipped). -/
def stampFirstRead (addr now : Nat) : List Transaction → List Transaction
  | [] => []
  | t :: rest =>
    if t.address = addr ∧ t.timeACTIssued = 0 then
      { t with timeACTIssued := now } :: rest
    else t :: stampFirstRead addr now rest

/-- ACTIVATE case, lines 453-461: stamp `timeACTIssued = now` into the first
pending read transaction with matching address. -/
def stampFirstACT (addr now : Nat) : List Transaction → List Transaction
  | [] => []
  | t :: rest =>
    if t.address = addr then { t with timeACTIssued := now } :: rest
    else t :: stampFirstACT addr now rest

/-- `case READ_P: case READ:` of the switch (lines 316-391). -/
def readCase (cfg : Cfg) (now : Nat) (p : BusPacket) (s : IssueState) : IssueState :=
  let rank := p.rank
  let bank := p.bank
  let pend := stampFirstRead p.physicalAddress now s.pendingReadTransactions
  -- SMART lazy sensing: first access after ACTIVATE pays the ACT energy (lines 331-335)
  let actpre :=
    if cfg.isSmartMRAM ∧ (s.banks rank bank).lastCommand = ACTIVATE then
      bump s.actpreEnergy rank (actEnergy cfg)
    else s.actpreEnergy
  let burst := bump s.burstEnergy rank ((cfg.IDD4R - cfg.IDD3N) * cfg.BL / 2 * cfg.NUM_DEVICES)
  let banks1 :=
    if p.busPacketType = READ_P then
      setBank s.banks rank bank (fun b =>
        { b with nextActivate := max (now + cfg.READ_AUTOPRE_DELAY) b.nextActivate,
                 lastCommand := READ_P,
                 stateChangeCountdown := cfg.READ_TO_PRE_DELAY })
    else
      setBank s.banks rank bank (fun b =>
        { b with nextPrecharge := max (now + cfg.READ_TO_PRE_DELAY) b.nextPrecharge,
                 lastCommand := READ })
  -- guard propagation to all banks (lines 359-380)
  let banks2 : BankMatrix := fun i j =>
    if i < cfg.NUM_RANKS ∧ j < cfg.NUM_BANKS then
      if i ≠ rank then
        if (banks1 i j).currentBankState = RowActive then
          { banks1 i j with
              nextRead := max (now + cfg.BL / 2 + cfg.tRTRS) (banks1 i j).nextRead,
              nextWrite := max (now + cfg.READ_TO_WRITE_DELAY) (banks1 i j).nextWrite }
        else banks1 i j
      else
        { banks1 i j with
            nextRead := max (now + max cfg.tCCD (cfg.BL / 2)) (banks1 i j).nextRead,
            nextWrite := max (now + cfg.READ_TO_WRITE_DELAY) (banks1 i j).nextWrite }
    else banks1 i j
  let banks3 :=
    if p.busPacketType = READ_P then
      setBank banks2 rank bank (fun b =>
        { b with nextRead := b.nextActivate, nextWrite := b.nextActivate })
    else banks2
  { s with pendingReadTransactions := pend, actpreEnergy := actpre,
           burstEnergy := burst, banks := banks3 }

/-- `case WRITE_P: case WRITE:` of the switch (lines 392-447). -/
def writeCase (cfg : Cfg) (now : Nat) (p : BusPacket) (s : IssueState) : IssueState :=
  let rank := p.rank
  let bank := p.bank
  let banks1 :=
    if p.busPacketType = WRITE_P then
      setBank s.banks rank bank (fun b =>
        { b with nextActivate := max (now + cfg.WRITE_AUTOPRE_DELAY) b.nextActivate,
                 lastCommand := WRITE_P,
                 stateChangeCountdown := cfg.WRITE_TO_PRE_DELAY })
    else
      setBank s.banks rank bank (fun b =>
        { b with nextPrecharge := max (now + cfg.WRITE_TO_PRE_DELAY) b.nextPrecharge,
                 lastCommand := WRITE })
  let burst := bump s.burstEnergy rank ((cfg.IDD4W - cfg.IDD3N) * cfg.BL / 2 * cfg.NUM_DEVICES)
  let banks2 : BankMatrix := fun i j =>
    if i < cfg.NUM_RANKS ∧ j < cfg.NUM_BANKS then
      if i ≠ rank then
        if (banks1 i j).currentBankState = RowActive then
          { banks1 i j with
              nextWrite := max (now + cfg.BL / 2 + cfg.tRTRS) (banks1 i j).nextWrite,
              nextRead := max (now + cfg.WRITE_TO_READ_DELAY_R) (banks1 i j).nextRead }
        else banks1 i j
      else
        { banks1 i j with
            nextWrite := max (now + max (cfg.BL / 2) cfg.tCCD) (banks1 i j).nextWrite,
            nextRead := max (now + cfg.WRITE_TO_READ_DELAY_B) (banks1 i j).nextRead }
    else banks1 i j
  let banks3 :=
    if p.busPacketType = WRITE_P then
      setBank banks2 rank bank (fun b =>
        { b with nextRead := b.nextActivate, nextWrite := b.nextActivate })
    else banks2
  { s with burstEnergy := burst, banks := banks3 }

/-- `case ACTIVATE:` of the switch (lines 448-501). -/
def activateCase (cfg : Cfg) (now : Nat) (p : BusPacket) (s : IssueState) : IssueState :=
  let rank := p.rank
  let bank := p.bank
  let pend := stampFirstACT p.physicalAddress now s.pendingReadTransactions
  -- conventional pays the ACT/PRE energy here; SMART pays nothing (lines 463-468)
  let actpre :=
    if cfg.isSmartMRAM then s.actpreEnergy
    else bump s.actpreEnergy rank (actEnergy cfg)
  let banks1 := setBank s.banks rank bank (fun b =>
    let b := { b with currentBankState := RowActive, lastCommand := ACTIVATE,
                      openRowAddress := p.row }
    if cfg.isSmartMRAM then
      { b with nextActivate := max (now + cfg.tRRD) b.nextActivate,
               nextPrecharge := now,
               nextRead := max now b.nextRead,
               nextWrite := max now b.nextWrite }
    else
      { b with nextActivate := max (now + cfg.tRC) b.nextActivate,
               nextPrecharge := max (now + cfg.tRAS) b.nextPrecharge,
               nextRead := max (now + (cfg.tRCD - cfg.AL)) b.nextRead,
               nextWrite := max (now + (cfg.tRCD - cfg.AL)) b.nextWrite })
  -- tRRD to the other banks of the same rank (lines 494-500)
  let banks2 : BankMatrix := fun i j =>
    if i = rank ∧ j < cfg.NUM_BANKS ∧ j ≠ bank then
      { banks1 i j with nextActivate := max (now + cfg.tRRD) (banks1 i j).nextActivate }
    else banks1 i j
  { s with pendingReadTransactions := pend, actpreEnergy := actpre, banks := banks2 }

/-- `case PRECHARGE:` of the switch (lines 503-522). -/
def prechargeCase (cfg : Cfg) (now : Nat) (p : BusPacket) (s : IssueState) : IssueState :=
  let banks := setBank s.banks p.rank p.bank (fun b =>
    if cfg.isSmartMRAM then
      { b with currentBankState := Idle, lastCommand := PRECHARGE,
               stateChangeCountdown := 0, nextActivate := now }
    else
      { b with currentBankState := Precharging, lastCommand := PRECHARGE,
               stateChangeCountdown := cfg.tRP,
               nextActivate := max (now + cfg.tRP) b.nextActivate })
  { s with banks := banks }

/-- `case REFRESH:` of the switch (lines 523-539). -/
def refreshCase (cfg : Cfg) (now : Nat) (p : BusPacket) (s : IssueState) : IssueState :=
  let refresh := bump s.refreshEnergy p.rank ((cfg.IDD5 - cfg.IDD3N) * cfg.tRFC * cfg.NUM_DEVICES)
  let banks : BankMatrix := fun i j =>
    if i = p.rank ∧ j < cfg.NUM_BANKS then
      { s.banks i j with nextActivate := now + cfg.tRFC,
                         currentBankState := Refreshing,
                         lastCommand := REFRESH,
                         stateChangeCountdown := cfg.tRFC }
    else s.banks i j
  { s with refreshEnergy := refresh, banks := banks }

/-- The command-issue effect of `update()` on a popped bus packet: the
WRITE/WRITE_P data-twin push (lines 299-306) followed by the switch
(lines 314-543).  `none` models `exit(0)` in the `default:` case. -/
def issueCommand (cfg : Cfg) (now : Nat) (p : BusPacket) (s : IssueState) :
    Option IssueState :=
  let s1 :=
    if p.busPacketType = WRITE ∨ p.busPacketType = WRITE_P then
      { s with
          writeDataToSend := s.writeDataToSend ++
            [⟨DATA, p.physicalAddress, p.column, p.row, p.rank, p.bank, p.dataVal⟩],
          writeDataCountdown := s.writeDataCountdown ++ [cfg.WL] }
    else s
  match p.busPacketType with
  | READ | READ_P => some (readCase cfg now p s1)
  | WRITE | WRITE_P => some (writeCase cfg now p s1)
  | ACTIVATE => some (activateCase cfg now p s1)
  | PRECHARGE => some (prechargeCase cfg now p s1)
  | REFRESH => some (refreshCase cfg now p s1)
  | DATA => none

/-!
## Write-data FIFO drain (update() lines 241-273)

If `writeDataCountdown` is non-empty, decrement every entry; if the head is
then zero, check for a data-bus collision (`exit(-1)`, modelled by `none`),
load the head of `writeDataToSend` onto the data bus with
`dataCyclesLeft = BL/2`, bump the write statistics, and erase both heads.
-/

/-- Controller state touched by the write-data drain. -/
structure DataBusState where
  outgoingDataPacket : Option BusPacket
  dataCyclesLeft : Nat
  writeDataCountdown : List Nat
  writeDataToSend : List BusPacket
  totalTransactions : Nat
  totalWritesPerBank : Nat → Nat

/-- The write-data drain step.  `none` models the fatal
"Data Bus Collision" exit; the inner `[]` case models the out-of-bounds
`writeDataToSend[0]` that could only occur if the two parallel FIFOs lost
sync (they are always pushed and popped together). -/
def writeDataStep (cfg : Cfg) (s : DataBusState) : Option DataBusState :=
  match s.writeDataCountdown with
  | [] => some s
  | c :: cs =>
    let cs' := cs.map (fun x => x - 1)
    if c - 1 = 0 then
      if s.outgoingDataPacket.isSome then none
      else
        match s.writeDataToSend with
        | [] => none
        | pkt :: rest =>
          some { s with outgoingDataPacket := some pkt,
                        dataCyclesLeft := cfg.BL / 2,
                        totalTransactions := s.totalTransactions + 1,
                        totalWritesPerBank :=
                          bump s.totalWritesPerBank (seqIdx cfg pkt.rank pkt.bank) 1,
                        writeDataCountdown := cs',
                        writeDataToSend := rest }
    else some { s with writeDataCountdown := (c - 1) :: cs' }

/-!
## Refresh gate (update() lines 277-292)

The gate examines only the current round-robin rank `refreshRank`: if its
countdown is zero, call `commandQueue.needRefresh`, raise the rank's
`refreshWaiting` flag, re-arm the countdown to `REFRESH_PERIOD/tCK` and
advance `refreshRank` (wrapping at `NUM_RANKS`); otherwise, if that rank is
powered down and its countdown is within `tXP`, raise `refreshWaiting`.
-/

/-- State touched by the refresh gate.  `needRefreshCalls` records the
arguments of the `commandQueue.needRefresh` calls made so far. -/
structure RefreshState where
  refreshCountdown : Nat → Nat
  refreshRank : Nat
  refreshWaiting : Nat → Bool
  powerDown : Nat → Bool
  needRefreshCalls : List Nat

/-- The refresh gate step. -/
def refreshGate (cfg : Cfg) (s : RefreshState) : RefreshState :=
  if s.refreshCountdown s.refreshRank = 0 then
    { s with
        needRefreshCalls := s.needRefreshCalls ++ [s.refreshRank],
        refreshWaiting := fun r => if r = s.refreshRank then true else s.refreshWaiting r,
        refreshCountdown := fun r =>
          if r = s.refreshRank then cfg.refreshPeriodCycles else s.refreshCountdown r,
        refreshRank := if s.refreshRank + 1 = cfg.NUM_RANKS then 0 else s.refreshRank + 1 }
  else if s.powerDown s.refreshRank ∧ s.refreshCountdown s.refreshRank ≤ cfg.tXP then
    { s with
        refreshWaiting := fun r => if r = s.refreshRank then true else s.refreshWaiting r }
  else s

/-- The per-rank countdown decrement at the end of `update()` (lines 778-781). -/
def decrementRefreshCountdowns (cfg : Cfg) (s : RefreshState) : RefreshState :=
  { s with refreshCountdown := fun r =>
      if r < cfg.NUM_RANKS then s.refreshCountdown r - 1 else s.refreshCountdown r }

/-!
## Transaction intake (lines 837-855)
-/

/-- `MemoryController::WillAcceptTransaction`. -/
def WillAcceptTransaction (cfg : Cfg) (transactionQueue : List Transaction) : Bool :=
  transactionQueue.length < cfg.TRANS_QUEUE_DEPTH

/-- `MemoryController::addTransaction`: if there is room, stamp
`timeAdded = currentClockCycle`, append, return true; else return false and
leave the queue alone. -/
def addTransaction (cfg : Cfg) (now : Nat) (t : Transaction)
    (transactionQueue : List Transaction) : Bool × List Transaction :=
  if WillAcceptTransaction cfg transactionQueue then
    (true, transactionQueue ++ [{ t with timeAdded := now }])
  else
    (false, transactionQueue)

/-!
## Read-return path (update() lines 733-775)

If `returnTransaction` is non-empty, scan `pendingReadTransactions` in queue
order (= arrival order, since entries are `push_back`-appended) for the first
entry with the same address; record the two latencies into the histograms,
fire `ReturnReadData`, and destroy both objects.  No match is the fatal
`abort()`, modelled by `none`.
-/

/-- Scan for the first pending read with the given address; return it and the
list with that entry erased. -/
def findMatch (addr : Nat) : List Transaction → Option (Transaction × List Transaction)
  | [] => none
  | t :: rest =>
    if t.address = addr then some (t, rest)
    else
      match findMatch addr rest with
      | some (f, rem) => some (f, t :: rem)
      | none => none

/-- State touched by the return path.  The histograms `latencies` and
`accessLatencies` are `map<unsigned,unsigned>` keyed by the binned latency;
`callbacks` records the `(address, cycle)` of each `ReturnReadData` firing
(delivered to the registered callback when it is non-null). -/
structure ReturnPathState where
  returnTransaction : List Transaction
  pendingReadTransactions : List Transaction
  latencies : Nat → Nat
  accessLatencies : Nat → Nat
  totalEpochLatency : Nat → Nat
  totalTransactions : Nat
  callbacks : List (Nat × Nat)

/-- `MemoryController::insertHistogram`: accumulate into
`totalEpochLatency[SEQUENTIAL(rank,bank)]` and bin into `latencies`. -/
def insertHistogram (cfg : Cfg) (latencyValue rank bank : Nat)
    (s : ReturnPathState) : ReturnPathState :=
  { s with
      totalEpochLatency := bump s.totalEpochLatency (seqIdx cfg rank bank) latencyValue,
      latencies := bump s.latencies
        (latencyValue / cfg.HISTOGRAM_BIN_SIZE * cfg.HISTOGRAM_BIN_SIZE) 1 }

/-- The return-path step at cycle `now`.  `amap` is the external
`addressMapping` function restricted to the (rank, bank) components used
here.  `none` models the fatal `abort()` when no pending read matches. -/
def returnPathStep (cfg : Cfg) (amap : Nat → Nat × Nat) (now : Nat)
    (s : ReturnPathState) : Option ReturnPathState :=
  match s.returnTransaction with
  | [] => some s
  | rt :: rest =>
    match findMatch rt.address s.pendingReadTransactions with
    | none => none
    | some (pt, remaining) =>
      let rb := amap rt.address
      let totalLatency := now - pt.timeAdded
      let accessLatency := now - pt.timeACTIssued
      let s2 := insertHistogram cfg totalLatency rb.1 rb.2
        { s with totalTransactions := s.totalTransactions + 1 }
      some { s2 with
          accessLatencies := bump s2.accessLatencies
            (accessLatency / cfg.HISTOGRAM_BIN_SIZE * cfg.HISTOGRAM_BIN_SIZE) 1,
          callbacks := s2.callbacks ++ [(pt.address, now)],
          pendingReadTransactions := remaining,
          returnTransaction := rest }

/-!
## Background energy (update() lines 690-730) and resetStats (lines 857-880)
-/

/-- Whether rank `i` has a bank `Refreshing` or `RowActive` (lines 691-700). -/
def rankHasOpenBank (cfg : Cfg) (banks : BankMatrix) (i : Nat) : Bool :=
  (List.range cfg.NUM_BANKS).any fun j =>
    ((banks i j).currentBankState == Refreshing) ||
    ((banks i j).currentBankState == RowActive)

/-- Per-rank background-energy accumulation for one cycle (lines 702-730). -/
def backgroundEnergyStep (cfg : Cfg) (banks : BankMatrix) (powerDown : Nat → Bool)
    (backgroundEnergy : Nat → Nat) (i : Nat) : Nat → Nat :=
  if rankHasOpenBank cfg banks i then
    bump backgroundEnergy i (cfg.IDD3N * cfg.NUM_DEVICES)
  else if powerDown i then
    bump backgroundEnergy i (cfg.IDD2P * cfg.NUM_DEVICES)
  else
    bump backgroundEnergy i (cfg.IDD2N * cfg.NUM_DEVICES)

/-- The four per-rank energy accumulators. -/
structure EnergyState where
  backgroundEnergy : Nat → Nat
  burstEnergy : Nat → Nat
  actpreEnergy : Nat → Nat
  refreshEnergy : Nat → Nat

/-- The energy-accumulator part of `MemoryController::resetStats` (invoked at
the end of every `printStats`, i.e. at each per-epoch statistics dump): every
rank's four accumulators are set to zero. -/
def resetStatsEnergy (cfg : Cfg) (e : EnergyState) : EnergyState :=
  { backgroundEnergy := fun r => if r < cfg.NUM_RANKS then 0 else e.backgroundEnergy r,
    burstEnergy := fun r => if r < cfg.NUM_RANKS then 0 else e.burstEnergy r,
    actpreEnergy := fun r => if r < cfg.NUM_RANKS then 0 else e.actpreEnergy r,
    refreshEnergy := fun r => if r < cfg.NUM_RANKS then 0 else e.refreshEnergy r }

/-!
## Concrete fixtures for witnesses and counterexamples
-/

/-- A quiescent bank. -/
def bank0 : BankState :=
  { currentBankState := Idle, lastCommand := PRECHARGE, openRowAddress := 0,
    stateChangeCountdown := 0, nextRead := 0, nextWrite := 0, nextActivate := 0,
    nextPrecharge := 0, nextPowerUp := 0 }

/-- A small concrete conventional-DRAM configuration. -/
def testCfg : Cfg :=
  { NUM_RANKS := 2, NUM_BANKS := 4, NUM_DEVICES := 2, BL := 4, WL := 3, AL := 0,
    tCCD := 4, tRTRS := 1, tRP := 5, tRC := 12, tRAS := 8, tRCD := 4, tRRD := 2,
    tRFC := 20, tXP := 3,
    READ_TO_PRE_DELAY := 3, READ_AUTOPRE_DELAY := 9, WRITE_TO_PRE_DELAY := 7,
    WRITE_AUTOPRE_DELAY := 13, READ_TO_WRITE_DELAY := 5, WRITE_TO_READ_DELAY_B := 6,
    WRITE_TO_READ_DELAY_R := 2,
    IDD0 := 10, IDD2N := 3, IDD2P := 1, IDD3N := 4, IDD4R := 9, IDD4W := 11,
    IDD5 := 20, refreshPeriodCycles := 100, TRANS_QUEUE_DEPTH := 4,
    HISTOGRAM_BIN_SIZE := 10, isSmartMRAM := false }

/-- The same configuration with the SMART STT-MRAM flag set. -/
def smartCfg : Cfg := { testCfg with isSmartMRAM := true }

/-- An ACTIVATE packet for rank 0, bank 1, row 7. -/
def pktACT : BusPacket := ⟨BusPacketType.ACTIVATE, 4096, 3, 7, 0, 1, 0⟩

/-- A READ packet for rank 0, bank 1. -/
def pktREAD : BusPacket := ⟨BusPacketType.READ, 4096, 3, 7, 0, 1, 0⟩

/-- A WRITE packet for rank 0, bank 1. -/
def pktWRITE : BusPacket := ⟨BusPacketType.WRITE, 4096, 3, 7, 0, 1, 55⟩

/-- A PRECHARGE packet for rank 0, bank 1. -/
def pktPRE : BusPacket := ⟨BusPacketType.PRECHARGE, 4096, 3, 7, 0, 1, 0⟩

/-- Controller state with all banks quiescent and all accumulators zero. -/
def issueState0 : IssueState :=
  { banks := fun _ _ => bank0, actpreEnergy := fun _ => 0, burstEnergy := fun _ => 0,
    refreshEnergy := fun _ => 0, writeDataToSend := [], writeDataCountdown := [],
    pendingReadTransactions := [] }

/-- Like `issueState0` but bank (0,1) has a pending bus guard
`nextRead = 25` (e.g. left by an earlier READ to another bank of the rank). -/
def issueStateGuard : IssueState :=
  { issueState0 with
      banks := fun i j => if i = 0 ∧ j = 1 then { bank0 with nextRead := 25 } else bank0 }

/-- Like `issueState0` but bank (0,1) is RowActive with `lastCommand =
ACTIVATE` (the state right after an ACTIVATE was issued to it). -/
def issueStateAfterACT : IssueState :=
  { issueState0 with
      banks := fun i j =>
        if i = 0 ∧ j = 1 then
          { bank0 with currentBankState := CurrentBankState.RowActive,
                       lastCommand := BusPacketType.ACTIVATE, openRowAddress := 7 }
        else bank0 }

/-- A RowActive bank one cycle away from its READ_P auto-precharge
completion, with a pending `nextActivate` guard of 99. -/
def bankAutoPre : BankState :=
  { bank0 with currentBankState := CurrentBankState.RowActive,
               lastCommand := BusPacketType.READ_P,
               stateChangeCountdown := 1, nextActivate := 99 }

/-- A concrete read transaction. -/
def tx0 : Transaction := ⟨TransactionType.DATA_READ, 4096, 0, 0, 0⟩

/-- A state in which rank 1's countdown is zero while the round-robin
pointer is at rank 0. -/
def refreshStateOther : RefreshState :=
  { refreshCountdown := fun r => if r = 1 then 0 else 5,
    refreshRank := 0,
    refreshWaiting := fun _ => false,
    powerDown := fun _ => false,
    needRefreshCalls := [] }

/-- A state in which the round-robin rank 0 is due for refresh. -/
def refreshStateDue : RefreshState :=
  { refreshCountdown := fun r => if r = 0 then 0 else 50,
    refreshRank := 0,
    refreshWaiting := fun _ => false,
    powerDown := fun _ => false,
    needRefreshCalls := [] }

/-- An energy state with every accumulator at 5. -/
def energyState5 : EnergyState :=
  ⟨fun _ => 5, fun _ => 5, fun _ => 5, fun _ => 5⟩

/-- A pending read transaction matching address 4096, arrived at cycle 3,
activated at cycle 5. -/
def pendingTx : Transaction := ⟨TransactionType.DATA_READ, 4096, 0, 3, 5⟩

/-- The RETURN_DATA transaction for address 4096. -/
def returnTx : Transaction := ⟨TransactionType.RETURN_DATA, 4096, 0, 0, 0⟩

/-- A return-path state with one queued return and one pending read. -/
def returnState0 : ReturnPathState :=
  { returnTransaction := [returnTx], pendingReadTransactions := [pendingTx],
    latencies := fun _ => 0, accessLatencies := fun _ => 0,
    totalEpochLatency := fun _ => 0, totalTransactions := 0, callbacks := [] }

/-- A write twin packet on the FIFO for rank 0, bank 1. -/
def dataPkt : BusPacket := ⟨BusPacketType.DATA, 4096, 3, 7, 0, 1, 55⟩

/-- A data-bus state whose FIFO head is due this cycle, with the bus free. -/
def dataBusState0 : DataBusState :=
  { outgoingDataPacket := none, dataCyclesLeft := 0,
    writeDataCountdown := [1, 3], writeDataToSend := [dataPkt, dataPkt],
    totalTransactions := 0, totalWritesPerBank := fun _ => 0 }

/-- A return-path state with two queued returns and two pending reads. -/
def returnState2 : ReturnPathState :=
  { returnState0 with returnTransaction := [returnTx, returnTx],
                      pendingReadTransactions := [pendingTx, pendingTx] }

/-- The state after one return-path step on `returnState2`. -/
def returnState2After : ReturnPathState :=
  (returnPathStep testCfg (fun _ => (0, 1)) 25 returnState2).getD returnState2

example : actEnergy testCfg = 152 := by decide
example :
    Option.map (fun s => (s.banks 0 1).nextRead) (issueCommand smartCfg 10 pktACT issueStateGuard)
      = some 25 := by decide
example :
    Option.map (fun s => s.actpreEnergy 0) (issueCommand smartCfg 10 pktWRITE issueStateAfterACT)
      = some 0 := by decide
example :
    Option.map (fun s => s.actpreEnergy 0) (issueCommand smartCfg 10 pktREAD issueStateAfterACT)
      = some 152 := by decide
example :
    Option.map (fun s => s.actpreEnergy 0) (issueCommand testCfg 10 pktACT issueState0)
      = some 152 := by decide
example :
    Option.map (fun s => (s.banks 0 1).nextActivate) (issueCommand smartCfg 10 pktPRE issueStateAfterACT)
      = some 10 := by decide

/-!
## Helper lemmas
-/

theorem bump_apply_le (v : Nat → Nat) (i amt k : Nat) : v k ≤ bump v i amt k := by
  unfold bump
  split <;> omega

theorem bump_apply_self (v : Nat → Nat) (i amt : Nat) : bump v i amt i = v i + amt := by
  simp [bump]

theorem issueCommand_eq_activate (cfg : Cfg) (now : Nat) (p : BusPacket) (s : IssueState)
    (hp : p.busPacketType = BusPacketType.ACTIVATE) :
    issueCommand cfg now p s = some (activateCase cfg now p s) := by
  unfold issueCommand
  rw [hp]
  simp

theorem issueCommand_eq_precharge (cfg : Cfg) (now : Nat) (p : BusPacket) (s : IssueState)
    (hp : p.busPacketType = BusPacketType.PRECHARGE) :
    issueCommand cfg now p s = some (prechargeCase cfg now p s) := by
  unfold issueCommand
  rw [hp]
  simp

theorem issueCommand_eq_read (cfg : Cfg) (now : Nat) (p : BusPacket) (s : IssueState)
    (hp : p.busPacketType = BusPacketType.READ ∨ p.busPacketType = BusPacketType.READ_P) :
    issueCommand cfg now p s = some (readCase cfg now p s) := by
  unfold issueCommand
  rcases hp with hp | hp <;> rw [hp] <;> simp

theorem activateCase_issuing_bank (cfg : Cfg) (now : Nat) (p : BusPacket) (s : IssueState) :
    (activateCase cfg now p s).banks p.rank p.bank =
      (fun b =>
        if cfg.isSmartMRAM then
          { b with nextActivate := max (now + cfg.tRRD) b.nextActivate,
                   nextPrecharge := now,
                   nextRead := max now b.nextRead,
                   nextWrite := max now b.nextWrite }
        else
          { b with nextActivate := max (now + cfg.tRC) b.nextActivate,
                   nextPrecharge := max (now + cfg.tRAS) b.nextPrecharge,
                   nextRead := max (now + (cfg.tRCD - cfg.AL)) b.nextRead,
                   nextWrite := max (now + (cfg.tRCD - cfg.AL)) b.nextWrite })
      { s.banks p.rank p.bank with
          currentBankState := CurrentBankState.RowActive,
          lastCommand := BusPacketType.ACTIVATE,
          openRowAddress := p.row } := by
  unfold activateCase setBank
  simp

/-!
## Claim C2 and C4: ACTIVATE effects
-/

/-- C2 counterexample: with `isSmartMRAM=true`, issuing ACTIVATE at cycle 10
to bank (0,1) whose `nextRead` guard is already 25 (left by earlier bus
traffic) leaves `nextRead = 25`, not `= 10` as the claim states: the code
takes `max(currentClockCycle, nextRead)`, it does not assign `now`. -/
theorem smart_activate_keeps_earlier_read_guard :
    Option.map (fun s => (s.banks 0 1).nextRead)
        (issueCommand smartCfg 10 pktACT issueStateGuard) = some 25 ∧ (25 : Nat) ≠ 10 := by
  decide

/-- C2 (amended): with `isSmartMRAM=true`, issuing ACTIVATE to (rank,bank) at
cycle `now` makes the bank RowActive with `openRowAddress` the packet's row,
and sets `nextActivate = max(now + tRRD, old)`, `nextPrecharge = now`,
`nextRead = max(now, old)` and `nextWrite = max(now, old)` (no tRCD wait, but
earlier guards are retained); every other bank of the rank gets
`nextActivate ≥ now + tRRD`. -/
theorem smart_activate_timing_effects (cfg : Cfg) (now : Nat) (p : BusPacket)
    (s s' : IssueState) (hs : cfg.isSmartMRAM = true)
    (hp : p.busPacketType = BusPacketType.ACTIVATE)
    (h : issueCommand cfg now p s = some s') :
    (s'.banks p.rank p.bank).currentBankState = CurrentBankState.RowActive ∧
    (s'.banks p.rank p.bank).openRowAddress = p.row ∧
    (s'.banks p.rank p.bank).nextActivate
        = max (now + cfg.tRRD) ((s.banks p.rank p.bank).nextActivate) ∧
    (s'.banks p.rank p.bank).nextPrecharge = now ∧
    (s'.banks p.rank p.bank).nextRead = max now ((s.banks p.rank p.bank).nextRead) ∧
    (s'.banks p.rank p.bank).nextWrite = max now ((s.banks p.rank p.bank).nextWrite) ∧
    (∀ j, j < cfg.NUM_BANKS → j ≠ p.bank →
        now + cfg.tRRD ≤ (s'.banks p.rank j).nextActivate) := by
  rw [issueCommand_eq_activate cfg now p s hp] at h
  obtain rfl : activateCase cfg now p s = s' := Option.some.inj h
  refine ⟨?_, ?_, ?_, ?_, ?_, ?_, ?_⟩
  · rw [activateCase_issuing_bank]; simp [hs]
  · rw [activateCase_issuing_bank]; simp [hs]
  · rw [activateCase_issuing_bank]; simp [hs]
  · rw [activateCase_issuing_bank]; simp [hs]
  · rw [activateCase_issuing_bank]; simp [hs]
  · rw [activateCase_issuing_bank]; simp [hs]
  · intro j hj hjb
    unfold activateCase setBank
    simp only [hj, hjb]
    simp [hjb]

/-- C2 witness: the amended ACTIVATE effects at a concrete SMART input. -/
theorem smart_activate_timing_effects_witness :
    ((activateCase smartCfg 10 pktACT issueStateGuard).banks pktACT.rank
        pktACT.bank).nextRead
      = max 10 ((issueStateGuard.banks pktACT.rank pktACT.bank).nextRead) :=
  (smart_activate_timing_effects smartCfg 10 pktACT issueStateGuard
      (activateCase smartCfg 10 pktACT issueStateGuard) rfl rfl rfl).2.2.2.2.1

/-- C4 (confirmed): with `isSmartMRAM=false`, issuing ACTIVATE to (rank,bank)
at cycle `now` adds `(IDD0*tRC - (IDD3N*tRAS + IDD2N*(tRC-tRAS)))*NUM_DEVICES`
to `actpreEnergy[rank]` and leaves the issuing bank's guards with
`nextActivate ≥ now + tRC`, `nextPrecharge ≥ now + tRAS`, and
`nextRead, nextWrite ≥ now + (tRCD - AL)`. -/
theorem conventional_activate_effects (cfg : Cfg) (now : Nat) (p : BusPacket)
    (s s' : IssueState) (hs : cfg.isSmartMRAM = false)
    (hp : p.busPacketType = BusPacketType.ACTIVATE)
    (h : issueCommand cfg now p s = some s') :
    s'.actpreEnergy p.rank = s.actpreEnergy p.rank + actEnergy cfg ∧
    now + cfg.tRC ≤ (s'.banks p.rank p.bank).nextActivate ∧
    now + cfg.tRAS ≤ (s'.banks p.rank p.bank).nextPrecharge ∧
    now + (cfg.tRCD - cfg.AL) ≤ (s'.banks p.rank p.bank).nextRead ∧
    now + (cfg.tRCD - cfg.AL) ≤ (s'.banks p.rank p.bank).nextWrite := by
  rw [issueCommand_eq_activate cfg now p s hp] at h
  obtain rfl : activateCase cfg now p s = s' := Option.some.inj h
  refine ⟨?_, ?_, ?_, ?_, ?_⟩
  · unfold activateCase
    simp [hs, bump_apply_self]
  · rw [activateCase_issuing_bank]; simp [hs]
  · rw [activateCase_issuing_bank]; simp [hs]
  · rw [activateCase_issuing_bank]; simp [hs]
  · rw [activateCase_issuing_bank]; simp [hs]

/-- C4 witness: the conventional ACTIVATE effects at a concrete input. -/
theorem conventional_activate_effects_witness :
    (activateCase testCfg 10 pktACT issueState0).actpreEnergy pktACT.rank
      = issueState0.actpreEnergy pktACT.rank + actEnergy testCfg :=
  (conventional_activate_effects testCfg 10 pktACT issueState0
      (activateCase testCfg 10 pktACT issueState0) rfl rfl rfl).1

/-!
## Claim C1: SMART lazy sensing energy
-/

theorem issueCommand_eq_write (cfg : Cfg) (now : Nat) (p : BusPacket) (s : IssueState)
    (hp : p.busPacketType = BusPacketType.WRITE ∨ p.busPacketType = BusPacketType.WRITE_P) :
    issueCommand cfg now p s = some (writeCase cfg now p
      { s with
          writeDataToSend := s.writeDataToSend ++
            [⟨BusPacketType.DATA, p.physicalAddress, p.column, p.row, p.rank, p.bank,
              p.dataVal⟩],
          writeDataCountdown := s.writeDataCountdown ++ [cfg.WL] }) := by
  unfold issueCommand
  rcases hp with hp | hp <;> rw [hp] <;> simp

/-- C1 counterexample: with `isSmartMRAM=true` and bank (0,1) fresh from an
ACTIVATE (`lastCommand = ACTIVATE`), issuing the first WRITE to it leaves
`actpreEnergy[0]` at 0, although the conventional activation energy at this
configuration is 152 ≠ 0 and the claim says the first READ **or WRITE** after
the ACTIVATE pays it.  The lazy-sensing charge exists only in the READ/READ_P
arm of the switch. -/
theorem smart_write_after_activate_adds_no_actpre :
    (issueStateAfterACT.banks 0 1).lastCommand = BusPacketType.ACTIVATE ∧
    Option.map (fun s => s.actpreEnergy 0)
        (issueCommand smartCfg 10 pktWRITE issueStateAfterACT) = some 0 ∧
    actEnergy smartCfg = 152 := by
  decide

/-- C1 (amended): with `isSmartMRAM=true`, ACTIVATE adds nothing to
`actpreEnergy`; the first READ or READ_P issued to a bank while its
`lastCommand` is still ACTIVATE adds the conventional activation energy
`(IDD0*tRC - (IDD3N*tRAS + IDD2N*(tRC-tRAS)))*NUM_DEVICES` to
`actpreEnergy[rank]`; a WRITE or WRITE_P never does. -/
theorem smart_actpre_energy_accounting (cfg : Cfg) (now : Nat) (p : BusPacket)
    (s s' : IssueState) (hs : cfg.isSmartMRAM = true)
    (h : issueCommand cfg now p s = some s') :
    (p.busPacketType = BusPacketType.ACTIVATE →
        ∀ r, s'.actpreEnergy r = s.actpreEnergy r) ∧
    ((p.busPacketType = BusPacketType.READ ∨ p.busPacketType = BusPacketType.READ_P) →
        (s.banks p.rank p.bank).lastCommand = BusPacketType.ACTIVATE →
        s'.actpreEnergy p.rank = s.actpreEnergy p.rank + actEnergy cfg) ∧
    ((p.busPacketType = BusPacketType.WRITE ∨ p.busPacketType = BusPacketType.WRITE_P) →
        ∀ r, s'.actpreEnergy r = s.actpreEnergy r) := by
  refine ⟨?_, ?_, ?_⟩
  · intro hp r
    rw [issueCommand_eq_activate cfg now p s hp] at h
    obtain rfl : activateCase cfg now p s = s' := Option.some.inj h
    unfold activateCase
    simp [hs]
  · intro hp hlast
    rw [issueCommand_eq_read cfg now p s hp] at h
    obtain rfl : readCase cfg now p s = s' := Option.some.inj h
    unfold readCase
    simp [hs, hlast, bump_apply_self]
  · intro hp r
    rw [issueCommand_eq_write cfg now p s hp] at h
    obtain rfl := Option.some.inj h
    unfold writeCase
    simp

/-- C1 witness: the first READ after an ACTIVATE pays the sensing energy at a
concrete SMART input. -/
theorem smart_actpre_energy_accounting_witness :
    (readCase smartCfg 10 pktREAD issueStateAfterACT).actpreEnergy pktREAD.rank
      = issueStateAfterACT.actpreEnergy pktREAD.rank + actEnergy smartCfg :=
  (smart_actpre_energy_accounting smartCfg 10 pktREAD issueStateAfterACT
      (readCase smartCfg 10 pktREAD issueStateAfterACT) rfl rfl).2.1 (Or.inl rfl) rfl

/-!
## Claim C3: PRECHARGE and auto-precharge completion
-/


/-- C3 counterexample: under SMART, when a READ_P auto-precharge countdown
fires the bank does go directly to Idle with countdown 0, but `nextActivate`
keeps its prior value (here 99) at every cycle — the countdown handler never
touches `nextActivate` — so the claim's `nextActivate = currentClockCycle`
(e.g. 10) is false on this path; only the explicit PRECHARGE command sets it. -/
theorem smart_autopre_completion_keeps_nextActivate :
    (bankUpdateStateChange smartCfg bankAutoPre).currentBankState
        = CurrentBankState.Idle ∧
    (bankUpdateStateChange smartCfg bankAutoPre).stateChangeCountdown = 0 ∧
    (bankUpdateStateChange smartCfg bankAutoPre).nextActivate = 99 ∧
    (99 : Nat) ≠ 10 := by
  decide

/-- C3 (amended): with `isSmartMRAM=true`, an explicit PRECHARGE command
takes the bank directly to Idle with `stateChangeCountdown = 0` and
`nextActivate = currentClockCycle`, and the auto-precharge completion of a
READ_P/WRITE_P likewise goes directly to Idle with countdown 0 but leaves
`nextActivate` unchanged; with `isSmartMRAM=false`, the PRECHARGE command
enters Precharging with countdown `tRP` and `nextActivate ≥ now + tRP`, and
the auto-precharge completion enters Precharging with countdown `tRP`,
leaving `nextActivate` unchanged. -/
theorem precharge_paths_effects (cfg : Cfg) :
    (∀ (now : Nat) (p : BusPacket) (s s' : IssueState),
      p.busPacketType = BusPacketType.PRECHARGE →
      issueCommand cfg now p s = some s' →
      (cfg.isSmartMRAM = true →
        (s'.banks p.rank p.bank).currentBankState = CurrentBankState.Idle ∧
        (s'.banks p.rank p.bank).stateChangeCountdown = 0 ∧
        (s'.banks p.rank p.bank).nextActivate = now) ∧
      (cfg.isSmartMRAM = false →
        (s'.banks p.rank p.bank).currentBankState = CurrentBankState.Precharging ∧
        (s'.banks p.rank p.bank).stateChangeCountdown = cfg.tRP ∧
        now + cfg.tRP ≤ (s'.banks p.rank p.bank).nextActivate)) ∧
    (∀ b : BankState, b.stateChangeCountdown = 1 →
      (b.lastCommand = BusPacketType.READ_P ∨ b.lastCommand = BusPacketType.WRITE_P) →
      (cfg.isSmartMRAM = true →
        (bankUpdateStateChange cfg b).currentBankState = CurrentBankState.Idle ∧
        (bankUpdateStateChange cfg b).stateChangeCountdown = 0 ∧
        (bankUpdateStateChange cfg b).nextActivate = b.nextActivate) ∧
      (cfg.isSmartMRAM = false →
        (bankUpdateStateChange cfg b).currentBankState
            = CurrentBankState.Precharging ∧
        (bankUpdateStateChange cfg b).stateChangeCountdown = cfg.tRP ∧
        (bankUpdateStateChange cfg b).nextActivate = b.nextActivate)) := by
  constructor
  · intro now p s s' hp h
    rw [issueCommand_eq_precharge cfg now p s hp] at h
    obtain rfl : prechargeCase cfg now p s = s' := Option.some.inj h
    constructor <;> intro hsm <;> unfold prechargeCase setBank <;> simp [hsm]
  · intro b hc hl
    rcases hl with hl | hl <;> constructor <;> intro hsm <;>
      simp [bankUpdateStateChange, hc, hl, hsm]

/-- C3 witness: a SMART PRECHARGE command at cycle 10 sets
`nextActivate = 10` on the issuing bank. -/
theorem precharge_paths_effects_witness :
    ((prechargeCase smartCfg 10 pktPRE issueStateAfterACT).banks pktPRE.rank
        pktPRE.bank).nextActivate = 10 :=
  (((precharge_paths_effects smartCfg).1 10 pktPRE issueStateAfterACT
      (prechargeCase smartCfg 10 pktPRE issueStateAfterACT) rfl rfl).1 rfl).2.2

/-!
## Claim C5: transaction intake and queue bound
-/

/-- C5 (confirmed): `addTransaction` returns false and leaves the queue
unchanged when it already holds `TRANS_QUEUE_DEPTH` transactions; otherwise
it stamps `timeAdded = currentClockCycle`, appends, and returns true; hence
the queue never exceeds `TRANS_QUEUE_DEPTH`. -/
theorem addTransaction_spec (cfg : Cfg) (now : Nat) (t : Transaction)
    (q : List Transaction) :
    (cfg.TRANS_QUEUE_DEPTH ≤ q.length → addTransaction cfg now t q = (false, q)) ∧
    (q.length < cfg.TRANS_QUEUE_DEPTH →
        addTransaction cfg now t q = (true, q ++ [{ t with timeAdded := now }])) ∧
    (q.length ≤ cfg.TRANS_QUEUE_DEPTH →
        (addTransaction cfg now t q).2.length ≤ cfg.TRANS_QUEUE_DEPTH) := by
  refine ⟨?_, ?_, ?_⟩
  · intro h
    have hnot : ¬ (q.length < cfg.TRANS_QUEUE_DEPTH) := Nat.not_lt.mpr h
    simp [addTransaction, WillAcceptTransaction, hnot]
  · intro h
    simp [addTransaction, WillAcceptTransaction, h]
  · intro h
    by_cases hlt : q.length < cfg.TRANS_QUEUE_DEPTH
    · simp [addTransaction, WillAcceptTransaction, hlt]
      omega
    · simp [addTransaction, WillAcceptTransaction, hlt]
      exact h


/-- C5 witness: adding to an empty queue stamps and appends. -/
theorem addTransaction_spec_witness :
    addTransaction testCfg 7 tx0 [] = (true, [{ tx0 with timeAdded := 7 }]) :=
  (addTransaction_spec testCfg 7 tx0 []).2.1 (by decide)

/-!
## Claim C7: refresh gate
-/


/-- C7 counterexample: rank 1's `refreshCountdown` is zero during this
update, yet the gate — which examines only the current `refreshRank` 0 —
performs no `needRefresh` call, raises no `refreshWaiting` flag, re-arms
nothing and does not rotate, contradicting the claim's "for every rank r". -/
theorem refresh_gate_ignores_other_ranks :
    refreshStateOther.refreshCountdown 1 = 0 ∧
    (refreshGate testCfg refreshStateOther).needRefreshCalls = [] ∧
    (refreshGate testCfg refreshStateOther).refreshWaiting 1 = false ∧
    (refreshGate testCfg refreshStateOther).refreshCountdown 1 = 0 ∧
    (refreshGate testCfg refreshStateOther).refreshRank = 0 := by
  decide

/-- C7 (amended): the refresh gate examines only the current round-robin
rank `refreshRank`.  When that rank's countdown is zero, the gate calls
`commandQueue.needRefresh(refreshRank)`, sets its `refreshWaiting` flag,
re-arms its countdown to `REFRESH_PERIOD/tCK`, and advances `refreshRank`
round-robin modulo `NUM_RANKS`; otherwise, if that rank is powered down with
its countdown within `tXP` of zero, its `refreshWaiting` flag is set. -/
theorem refresh_gate_spec (cfg : Cfg) (s : RefreshState)
    (hlt : s.refreshRank < cfg.NUM_RANKS) :
    (s.refreshCountdown s.refreshRank = 0 →
        (refreshGate cfg s).needRefreshCalls = s.needRefreshCalls ++ [s.refreshRank] ∧
        (refreshGate cfg s).refreshWaiting s.refreshRank = true ∧
        (refreshGate cfg s).refreshCountdown s.refreshRank = cfg.refreshPeriodCycles ∧
        (refreshGate cfg s).refreshRank = (s.refreshRank + 1) % cfg.NUM_RANKS) ∧
    (s.refreshCountdown s.refreshRank ≠ 0 → s.powerDown s.refreshRank = true →
        s.refreshCountdown s.refreshRank ≤ cfg.tXP →
        (refreshGate cfg s).refreshWaiting s.refreshRank = true) := by
  constructor
  · intro h0
    unfold refreshGate
    simp [h0]
    split
    · next heq => rw [heq, Nat.mod_self]
    · next hne =>
        have hlt' : s.refreshRank + 1 < cfg.NUM_RANKS :=
          lt_of_le_of_ne (Nat.succ_le_of_lt hlt) hne
        exact (Nat.mod_eq_of_lt hlt').symm
  · intro h0 hpd hle
    unfold refreshGate
    simp [h0, hpd, hle]


/-- C7 witness: the gate fires for the due round-robin rank. -/
theorem refresh_gate_spec_witness :
    (refreshGate testCfg refreshStateDue).needRefreshCalls
      = refreshStateDue.needRefreshCalls ++ [refreshStateDue.refreshRank] :=
  ((refresh_gate_spec testCfg refreshStateDue (by decide)).1 (by decide)).1

/-!
## Claim C9: energy accumulator monotonicity
-/


/-- C9 counterexample: the per-epoch statistics dump ends in `resetStats`,
which sets every rank's energy accumulators to zero — here `burstEnergy[0]`
drops from 5 to 0, so the accumulators are not non-decreasing across the
dump. -/
theorem resetStats_zeroes_energy :
    energyState5.burstEnergy 0 = 5 ∧
    (resetStatsEnergy testCfg energyState5).burstEnergy 0 = 0 ∧
    ¬ (5 ≤ (0 : Nat)) := by
  decide

theorem issueCommand_eq_refresh (cfg : Cfg) (now : Nat) (p : BusPacket) (s : IssueState)
    (hp : p.busPacketType = BusPacketType.REFRESH) :
    issueCommand cfg now p s = some (refreshCase cfg now p s) := by
  unfold issueCommand
  rw [hp]
  simp

/-- C9 (amended): within an epoch every controller operation only adds to the
four per-rank energy accumulators — the command-issue switch never decreases
`actpreEnergy`, `burstEnergy` or `refreshEnergy`, and the per-cycle
background accounting only adds to `backgroundEnergy` — but `resetStats`
(invoked by each per-epoch statistics dump) resets all four to zero, so
monotonicity holds only between dumps. -/
theorem energy_monotone_between_dumps (cfg : Cfg) :
    (∀ (now : Nat) (p : BusPacket) (s s' : IssueState) (r : Nat),
        issueCommand cfg now p s = some s' →
        s.actpreEnergy r ≤ s'.actpreEnergy r ∧
        s.burstEnergy r ≤ s'.burstEnergy r ∧
        s.refreshEnergy r ≤ s'.refreshEnergy r) ∧
    (∀ (banks : BankMatrix) (pd : Nat → Bool) (bg : Nat → Nat) (i r : Nat),
        bg r ≤ backgroundEnergyStep cfg banks pd bg i r) ∧
    (∀ (e : EnergyState) (r : Nat), r < cfg.NUM_RANKS →
        (resetStatsEnergy cfg e).backgroundEnergy r = 0 ∧
        (resetStatsEnergy cfg e).burstEnergy r = 0 ∧
        (resetStatsEnergy cfg e).actpreEnergy r = 0 ∧
        (resetStatsEnergy cfg e).refreshEnergy r = 0) := by
  refine ⟨?_, ?_, ?_⟩
  · intro now p s s' r h
    cases hp : p.busPacketType
    case READ =>
      rw [issueCommand_eq_read cfg now p s (Or.inl hp)] at h
      obtain rfl : readCase cfg now p s = s' := Option.some.inj h
      unfold readCase
      refine ⟨?_, ?_, ?_⟩
      · simp only []
        split
        · exact bump_apply_le _ _ _ _
        · exact le_rfl
      · exact bump_apply_le _ _ _ _
      · exact le_rfl
    case READ_P =>
      rw [issueCommand_eq_read cfg now p s (Or.inr hp)] at h
      obtain rfl : readCase cfg now p s = s' := Option.some.inj h
      unfold readCase
      refine ⟨?_, ?_, ?_⟩
      · simp only []
        split
        · exact bump_apply_le _ _ _ _
        · exact le_rfl
      · exact bump_apply_le _ _ _ _
      · exact le_rfl
    case WRITE =>
      rw [issueCommand_eq_write cfg now p s (Or.inl hp)] at h
      obtain rfl := Option.some.inj h
      unfold writeCase
      exact ⟨le_rfl, bump_apply_le _ _ _ _, le_rfl⟩
    case WRITE_P =>
      rw [issueCommand_eq_write cfg now p s (Or.inr hp)] at h
      obtain rfl := Option.some.inj h
      unfold writeCase
      exact ⟨le_rfl, bump_apply_le _ _ _ _, le_rfl⟩
    case ACTIVATE =>
      rw [issueCommand_eq_activate cfg now p s hp] at h
      obtain rfl : activateCase cfg now p s = s' := Option.some.inj h
      unfold activateCase
      refine ⟨?_, le_rfl, le_rfl⟩
      simp only []
      split
      · exact le_rfl
      · exact bump_apply_le _ _ _ _
    case PRECHARGE =>
      rw [issueCommand_eq_precharge cfg now p s hp] at h
      obtain rfl : prechargeCase cfg now p s = s' := Option.some.inj h
      unfold prechargeCase
      exact ⟨le_rfl, le_rfl, le_rfl⟩
    case REFRESH =>
      rw [issueCommand_eq_refresh cfg now p s hp] at h
      obtain rfl : refreshCase cfg now p s = s' := Option.some.inj h
      unfold refreshCase
      exact ⟨le_rfl, le_rfl, bump_apply_le _ _ _ _⟩
    case DATA =>
      unfold issueCommand at h
      rw [hp] at h
      simp at h
  · intro banks pd bg i r
    unfold backgroundEnergyStep
    split
    · exact bump_apply_le _ _ _ _
    · split
      · exact bump_apply_le _ _ _ _
      · exact bump_apply_le _ _ _ _
  · intro e r hr
    unfold resetStatsEnergy
    simp [hr]

/-- C9 witness: a conventional ACTIVATE does not decrease `actpreEnergy[0]`. -/
theorem energy_monotone_between_dumps_witness :
    issueState0.actpreEnergy 0
      ≤ (activateCase testCfg 10 pktACT issueState0).actpreEnergy 0 :=
  ((energy_monotone_between_dumps testCfg).1 10 pktACT issueState0
      (activateCase testCfg 10 pktACT issueState0) 0 rfl).1

/-!
## Claim C6: read-return path
-/

theorem findMatch_first (addr : Nat) :
    ∀ (l : List Transaction) (pt : Transaction) (rem : List Transaction),
      findMatch addr l = some (pt, rem) →
      ∃ pre post, l = pre ++ pt :: post ∧ rem = pre ++ post ∧
        pt.address = addr ∧ ∀ x ∈ pre, x.address ≠ addr := by
  intro l
  induction l with
  | nil => intro pt rem h; simp [findMatch] at h
  | cons a rest ih =>
    intro pt rem h
    unfold findMatch at h
    by_cases ha : a.address = addr
    · rw [if_pos ha] at h
      injection h with h'
      rw [Prod.mk.injEq] at h'
      obtain ⟨rfl, rfl⟩ := h'
      exact ⟨[], rest, by simp, by simp, ha, by simp⟩
    · rw [if_neg ha] at h
      cases hm : findMatch addr rest with
      | none => rw [hm] at h; simp at h
      | some pr =>
        obtain ⟨f, rem'⟩ := pr
        rw [hm] at h
        simp only [] at h
        injection h with h'
        rw [Prod.mk.injEq] at h'
        obtain ⟨rfl, rfl⟩ := h'
        obtain ⟨pre, post, hl, hr, haddr, hpre⟩ := ih f rem' hm
        refine ⟨a :: pre, post, by simp [hl], by simp [hr], haddr, ?_⟩
        intro x hx
        rcases List.mem_cons.mp hx with rfl | hx'
        · exact ha
        · exact hpre x hx'

/-- C6 (confirmed): when a RETURN_DATA transaction heads `returnTransaction`
at cycle `now`, the controller finds the earliest-arrived pending read with
the same address (the pending queue is in arrival order), records
`totalLatency = now - timeAdded` and `accessLatency = now - timeACTIssued`
into the histograms binned by `HISTOGRAM_BIN_SIZE`, fires the
`ReturnReadData` callback, and removes both objects; if no pending read
matches the address, the simulator aborts (`none`). -/
theorem return_path_spec (cfg : Cfg) (amap : Nat → Nat × Nat) (now : Nat)
    (s : ReturnPathState) (rt : Transaction) (rest : List Transaction)
    (hq : s.returnTransaction = rt :: rest) :
    (findMatch rt.address s.pendingReadTransactions = none →
        returnPathStep cfg amap now s = none) ∧
    (∀ pt rem, findMatch rt.address s.pendingReadTransactions = some (pt, rem) →
        (∃ pre post, s.pendingReadTransactions = pre ++ pt :: post ∧
            rem = pre ++ post ∧ pt.address = rt.address ∧
            ∀ x ∈ pre, x.address ≠ rt.address) ∧
        (∃ s', returnPathStep cfg amap now s = some s' ∧
            s'.latencies = bump s.latencies
              ((now - pt.timeAdded) / cfg.HISTOGRAM_BIN_SIZE * cfg.HISTOGRAM_BIN_SIZE) 1 ∧
            s'.accessLatencies = bump s.accessLatencies
              ((now - pt.timeACTIssued) / cfg.HISTOGRAM_BIN_SIZE
                * cfg.HISTOGRAM_BIN_SIZE) 1 ∧
            s'.totalEpochLatency = bump s.totalEpochLatency
              (seqIdx cfg (amap rt.address).1 (amap rt.address).2)
              (now - pt.timeAdded) ∧
            s'.callbacks = s.callbacks ++ [(pt.address, now)] ∧
            s'.pendingReadTransactions = rem ∧
            s'.returnTransaction = rest)) := by
  constructor
  · intro hm
    unfold returnPathStep
    rw [hq]
    simp [hm]
  · intro pt rem hm
    refine ⟨findMatch_first rt.address s.pendingReadTransactions pt rem hm, ?_⟩
    have hstep : returnPathStep cfg amap now s = some
        { returnTransaction := rest,
          pendingReadTransactions := rem,
          latencies := bump s.latencies
            ((now - pt.timeAdded) / cfg.HISTOGRAM_BIN_SIZE
              * cfg.HISTOGRAM_BIN_SIZE) 1,
          accessLatencies := bump s.accessLatencies
            ((now - pt.timeACTIssued) / cfg.HISTOGRAM_BIN_SIZE
              * cfg.HISTOGRAM_BIN_SIZE) 1,
          totalEpochLatency := bump s.totalEpochLatency
            (seqIdx cfg (amap rt.address).1 (amap rt.address).2)
            (now - pt.timeAdded),
          totalTransactions := s.totalTransactions + 1,
          callbacks := s.callbacks ++ [(pt.address, now)] } := by
      unfold returnPathStep
      rw [hq]
      simp only [hm]
      simp [insertHistogram]
    exact ⟨_, hstep, by simp, by simp, by simp, by simp, by simp, by simp⟩




/-- C6 witness: the return path fires exactly one callback with the matched
address and the current cycle at a concrete input. -/
theorem return_path_spec_witness :
    ∃ s', returnPathStep testCfg (fun _ => (0, 1)) 25 returnState0 = some s' ∧
      s'.latencies = bump returnState0.latencies
        ((25 - pendingTx.timeAdded) / testCfg.HISTOGRAM_BIN_SIZE
          * testCfg.HISTOGRAM_BIN_SIZE) 1 ∧
      s'.accessLatencies = bump returnState0.accessLatencies
        ((25 - pendingTx.timeACTIssued) / testCfg.HISTOGRAM_BIN_SIZE
          * testCfg.HISTOGRAM_BIN_SIZE) 1 ∧
      s'.totalEpochLatency = bump returnState0.totalEpochLatency
        (seqIdx testCfg ((fun _ => ((0:Nat), (1:Nat))) returnTx.address).1
          ((fun _ => ((0:Nat), (1:Nat))) returnTx.address).2)
        (25 - pendingTx.timeAdded) ∧
      s'.callbacks = returnState0.callbacks ++ [(pendingTx.address, 25)] ∧
      s'.pendingReadTransactions = [] ∧
      s'.returnTransaction = [] :=
  ((return_path_spec testCfg (fun _ => (0, 1)) 25 returnState0 returnTx [] rfl).2
      pendingTx [] rfl).2

/-!
## Claim C8: write-data FIFO and data bus
-/

/-- C8 (confirmed): issuing a WRITE or WRITE_P appends a DATA twin to
`writeDataToSend` with countdown `WL`; the drain step decrements every
countdown entry, and when the head reaches zero it loads the packet onto the
data bus with `dataCyclesLeft = BL/2` and erases the FIFO entry, aborting
(`none`) if the data bus already holds an outgoing packet. -/
theorem write_data_path_spec (cfg : Cfg) :
    (∀ (now : Nat) (p : BusPacket) (s s' : IssueState),
      (p.busPacketType = BusPacketType.WRITE ∨ p.busPacketType = BusPacketType.WRITE_P) →
      issueCommand cfg now p s = some s' →
      s'.writeDataToSend = s.writeDataToSend ++
        [⟨BusPacketType.DATA, p.physicalAddress, p.column, p.row, p.rank, p.bank,
          p.dataVal⟩] ∧
      s'.writeDataCountdown = s.writeDataCountdown ++ [cfg.WL]) ∧
    (∀ (s : DataBusState) (c : Nat) (cs : List Nat),
      s.writeDataCountdown = c :: cs →
      (1 < c → writeDataStep cfg s =
          some { s with writeDataCountdown := (c - 1) :: cs.map (fun x => x - 1) }) ∧
      (c ≤ 1 →
        (s.outgoingDataPacket ≠ none → writeDataStep cfg s = none) ∧
        (∀ (pkt : BusPacket) (rest : List BusPacket),
          s.outgoingDataPacket = none → s.writeDataToSend = pkt :: rest →
          writeDataStep cfg s =
            some { s with outgoingDataPacket := some pkt,
                          dataCyclesLeft := cfg.BL / 2,
                          totalTransactions := s.totalTransactions + 1,
                          totalWritesPerBank :=
                            bump s.totalWritesPerBank (seqIdx cfg pkt.rank pkt.bank) 1,
                          writeDataCountdown := cs.map (fun x => x - 1),
                          writeDataToSend := rest }))) := by
  constructor
  · intro now p s s' hp h
    rw [issueCommand_eq_write cfg now p s hp] at h
    obtain rfl := Option.some.inj h
    unfold writeCase
    constructor <;> simp
  · intro s c cs hc
    constructor
    · intro hgt
      have hne : ¬ (c - 1 = 0) := by omega
      unfold writeDataStep
      rw [hc]
      simp [hne]
    · intro hle
      have heq : c - 1 = 0 := by omega
      constructor
      · intro hbus
        have hsome : s.outgoingDataPacket.isSome = true := by
          cases hob : s.outgoingDataPacket with
          | none => exact absurd hob hbus
          | some x => rfl
        unfold writeDataStep
        rw [hc]
        simp [heq, hsome]
      · intro pkt rest hbus hsend
        have hnone : s.outgoingDataPacket.isSome = false := by
          rw [hbus]; rfl
        unfold writeDataStep
        rw [hc]
        simp [heq, hnone, hsend]



/-- C8 witness: the due head is loaded onto the free data bus with
`dataCyclesLeft = BL/2` and both FIFO heads are erased. -/
theorem write_data_path_spec_witness :
    writeDataStep testCfg dataBusState0 =
      some { dataBusState0 with
               outgoingDataPacket := some dataPkt,
               dataCyclesLeft := testCfg.BL / 2,
               totalTransactions := dataBusState0.totalTransactions + 1,
               totalWritesPerBank :=
                 bump dataBusState0.totalWritesPerBank
                   (seqIdx testCfg dataPkt.rank dataPkt.bank) 1,
               writeDataCountdown := [3].map (fun x => x - 1),
               writeDataToSend := [dataPkt] } :=
  (((write_data_path_spec testCfg).2 dataBusState0 1 [3] rfl).2 (by decide)).2
    dataPkt [dataPkt] rfl rfl

/-!
## Claim C10: at most one read return per update
-/

/-- C10 (confirmed): each `update()` examines only the head of
`returnTransaction`, so at most one `ReturnReadData` callback fires per
cycle, and when several returns are queued the second one is still queued
(at the head) after the step, waiting at least one further cycle. -/
theorem return_path_single_delivery (cfg : Cfg) (amap : Nat → Nat × Nat) (now : Nat)
    (s s' : ReturnPathState) (h : returnPathStep cfg amap now s = some s') :
    s'.callbacks.length ≤ s.callbacks.length + 1 ∧
    (∀ (t1 t2 : Transaction) (rest : List Transaction),
        s.returnTransaction = t1 :: t2 :: rest →
        s'.returnTransaction = t2 :: rest) := by
  unfold returnPathStep at h
  cases hq : s.returnTransaction with
  | nil =>
      rw [hq] at h
      simp only [] at h
      obtain rfl := Option.some.inj h
      constructor
      · omega
      · intro t1 t2 rest h'
        exact absurd h' (by simp)
  | cons rt rest =>
      rw [hq] at h
      simp only [] at h
      cases hm : findMatch rt.address s.pendingReadTransactions with
      | none => rw [hm] at h; simp at h
      | some pr =>
          obtain ⟨pt, rem⟩ := pr
          rw [hm] at h
          simp only [] at h
          obtain rfl := Option.some.inj h
          constructor
          · simp [insertHistogram]
          · intro t1 t2 rest' h'
            injection h' with h1 h2



/-- C10 witness: with two returns queued, one step fires at most one callback
and leaves the second return at the head of the queue. -/
theorem return_path_single_delivery_witness :
    returnState2After.callbacks.length ≤ returnState2.callbacks.length + 1 ∧
    returnState2After.returnTransaction = [returnTx] :=
  ⟨(return_path_single_delivery testCfg (fun _ => (0, 1)) 25 returnState2
      returnState2After rfl).1,
   (return_path_single_delivery testCfg (fun _ => (0, 1)) 25 returnState2
      returnState2After rfl).2 returnTx returnTx [] rfl⟩

end KillLlama
